import Mathlib

/-!
Verification of the morita-finance screening filter and cache/refresh engine.

The embedding follows `src/scanner_standalone.py` (v1.12, the canonical cached
scanner): OHLCV bars are modelled as exact rationals, a series is a list of
bars ordered ascending by date, and the per-ticker loop of
`generate_final_report` is modelled as explicit state passing over an
association-list cache keyed by ticker code.
-/

namespace Morita

/-- One daily OHLCV bar (a row of the price-history DataFrame): open, high,
low, close, volume, modelled as exact rationals. -/
structure Bar where
  opn : ℚ
  high : ℚ
  low : ℚ
  close : ℚ
  volume : ℚ
deriving Repr, DecidableEq

/-- A price series for one ticker, ordered ascending by date; the last element
is the most recent bar. -/
abbrev Series := List Bar

/-- Pandas `iloc[-n:]`: the last `n` elements (the whole list when shorter). -/
def lastN (n : Nat) (xs : List α) : List α := xs.drop (xs.length - n)

/-- Pandas `iloc[:-n]`: all but the last `n` elements. -/
def dropLastN (n : Nat) (xs : List α) : List α := xs.take (xs.length - n)

/-- Pandas `Series.max()`; 0 on the empty list (unreached: windows are
non-empty wherever the scanner calls it). -/
def listMax : List ℚ → ℚ
  | [] => 0
  | x :: xs => xs.foldl max x

/-- Pandas `Series.min()`; 0 on the empty list. -/
def listMin : List ℚ → ℚ
  | [] => 0
  | x :: xs => xs.foldl min x

/-- Sum of a list of rationals. -/
def listSum (xs : List ℚ) : ℚ := xs.foldl (· + ·) 0

/-- Pandas `Series.mean()`; the 0-division convention gives 0 on []. -/
def listMean (xs : List ℚ) : ℚ := listSum xs / (xs.length : ℚ)

/-! Configuration constants of `scanner_standalone.py` (identical in
`scanner.py` and `scanner_ai.py`). -/

def WINDOW_DAYS : Nat := 25
def RANGE_FACTOR_S1 : ℚ := 1.15
def RANGE_FACTOR_S2 : ℚ := 1.10
def UP_FROM_LOW_RATE : ℚ := 1.10
def VOL_MULT_S1_TODAY : ℚ := 2.0
def VOL_MULT_S1_YEST : ℚ := 1.5
def VOL_MULT_S2 : ℚ := 2.0
def PRICE_LIMIT_YEN : ℚ := 200000
def CACHE_TTL_SECONDS : ℚ := 3600

/-! Windowed statistics, from the body of the per-ticker loop:
`df_window = df.iloc[-WINDOW_DAYS:]` and the five quantities read off it. -/

/-- Source `df_window = df.iloc[-WINDOW_DAYS:]`. -/
def wdw (df : Series) : Series := lastN WINDOW_DAYS df

/-- Source `low_window = df_window['Low'].min()`. -/
def low_window (df : Series) : ℚ := listMin ((wdw df).map Bar.low)

/-- Source `current_price = df_window['Close'].iloc[-1]`. -/
def current_price (df : Series) : ℚ := ((wdw df).map Bar.close).getLastD 0

/-- Source `vol_avg = df_window['Volume'].mean()` — the mean over the full 25-bar
window, today included. -/
def vol_avg (df : Series) : ℚ := listMean ((wdw df).map Bar.volume)

/-- Source `vol_today = df_window['Volume'].iloc[-1]`. -/
def vol_today (df : Series) : ℚ := ((wdw df).map Bar.volume).getLastD 0

/-- Source `vol_yesterday = df_window['Volume'].iloc[-2]`. -/
def vol_yesterday (df : Series) : ℚ :=
  ((wdw df).map Bar.volume).dropLast.getLastD 0

/-- Source `open_today = df_window['Open'].iloc[-1]`. -/
def open_today (df : Series) : ℚ := ((wdw df).map Bar.opn).getLastD 0

/-! The v1.11 stage-1 and stage-2 predicates. -/

/-- Source `is_range_s1 = df_window['Close'].iloc[:-3].max() <= low_window * RANGE_FACTOR_S1`. -/
def is_range_s1 (df : Series) : Bool :=
  decide (listMax (dropLastN 3 ((wdw df).map Bar.close)) ≤ low_window df * RANGE_FACTOR_S1)

/-- Source `up_from_low = current_price >= low_window * UP_FROM_LOW_RATE`. -/
def up_from_low (df : Series) : Bool :=
  decide (current_price df ≥ low_window df * UP_FROM_LOW_RATE)

/-- Source `high_vol_s1 = vol_today >= vol_avg * VOL_MULT_S1_TODAY and vol_yesterday >= vol_avg * VOL_MULT_S1_YEST`. -/
def high_vol_s1 (df : Series) : Bool :=
  decide (vol_today df ≥ vol_avg df * VOL_MULT_S1_TODAY) &&
  decide (vol_yesterday df ≥ vol_avg df * VOL_MULT_S1_YEST)

/-- The price-ceiling conjunct `(current_price * 100) <= PRICE_LIMIT_YEN`. -/
def price_within (df : Series) : Bool :=
  decide (current_price df * 100 ≤ PRICE_LIMIT_YEN)

/-- The full stage-1 gate: `is_range_s1 and up_from_low and high_vol_s1 and
(current_price * 100) <= PRICE_LIMIT_YEN`. -/
def stage1Pred (df : Series) : Bool :=
  is_range_s1 df && up_from_low df && high_vol_s1 df && price_within df

/-- Source `is_range_s2 = df_window['Close'].iloc[:-1].max() <= low_window * RANGE_FACTOR_S2`. -/
def is_range_s2 (df : Series) : Bool :=
  decide (listMax (dropLastN 1 ((wdw df).map Bar.close)) ≤ low_window df * RANGE_FACTOR_S2)

/-- Source `high_vol_s2 = vol_today >= vol_avg * VOL_MULT_S2 and vol_yesterday >= vol_avg * VOL_MULT_S2`. -/
def high_vol_s2 (df : Series) : Bool :=
  decide (vol_today df ≥ vol_avg df * VOL_MULT_S2) &&
  decide (vol_yesterday df ≥ vol_avg df * VOL_MULT_S2)

/-- The stage-2 gate evaluated inside the stage-1 branch. -/
def stage2Pred (df : Series) : Bool := is_range_s2 df && high_vol_s2 df

/-! Derived fields computed inside the stage-1 branch. -/

/-- Source `target1 = max(current_price * 0.97, df_window['Open'].iloc[-1])`. -/
def target1 (df : Series) : ℚ := max (current_price df * 0.97) (open_today df)

/-- Source `target2 = (low_window + current_price) / 2`. -/
def target2 (df : Series) : ℚ := (low_window df + current_price df) / 2

/-- Source `stop_loss = df['Close'].iloc[-5:].mean()` — over the full series, which
coincides with the last 5 bars of the window. -/
def stop_loss (df : Series) : ℚ := listMean (lastN 5 (df.map Bar.close))

/-- Source `vol_today / vol_avg` (the 出来高倍率 field of `scanner_ai.py`). -/
def volFactor (df : Series) : ℚ := vol_today df / vol_avg df

/-- Source `((current_price / low_window) - 1) * 100` (the 上昇率 field, before its
display rounding). -/
def rally_pct (df : Series) : ℚ := (current_price df / low_window df - 1) * 100

/-- The raw (un-rounded) classification record built in the stage-1 branch;
`level2` mirrors the 判定レベル upgrade to 第二段階. -/
structure ScreenResult where
  level2 : Bool
  close_today : ℚ
  t1 : ℚ
  t2 : ℚ
  stop : ℚ
  volx : ℚ
  rally : ℚ
deriving Repr, DecidableEq

/-- The screening engine for one series: `None` when the series is shorter
than `WINDOW_DAYS + 1` bars (`continue`) or when the stage-1 gate fails (no
append), otherwise the record with the stage-2 refinement flag. -/
def classify (df : Series) : Option ScreenResult :=
  if df.length < WINDOW_DAYS + 1 then none
  else if stage1Pred df then
    some { level2 := stage2Pred df
           close_today := current_price df
           t1 := target1 df
           t2 := target2 df
           stop := stop_loss df
           volx := volFactor df
           rally := rally_pct df }
  else none

/-! Display rounding: Python `round(x, 1)` rounds half to even. It is applied
only when the report item is built, never inside the gating predicates. -/

/-- Python `round(x)`: round half to even. -/
def pyRound (x : ℚ) : ℤ :=
  if Int.fract x < 1/2 then ⌊x⌋
  else if 1/2 < Int.fract x then ⌊x⌋ + 1
  else if 2 ∣ ⌊x⌋ then ⌊x⌋ else ⌊x⌋ + 1

/-- Python `round(x, 1)`. -/
def round1 (x : ℚ) : ℚ := (pyRound (x * 10) : ℚ) / 10

/-- Ticker codes (`"7203.T"` and the like); a plain identifier with decidable
equality, modelled by naturals. -/
abbrev Ticker := ℕ

/-- The report item (dict) appended to `stage1_list` / `stage2_list`: its
numeric fields are the derived values rounded to 1 decimal for display. -/
structure Item where
  code : Ticker
  close_disp : ℚ
  rally_disp : ℚ
  t1_disp : ℚ
  t2_disp : ℚ
  stop_disp : ℚ
  level2 : Bool
deriving Repr, DecidableEq

/-- Builds the report item exactly as the stage-1 branch does: each display
field is `round(..., 1)` of the corresponding raw value, and 判定レベル is
upgraded when the stage-2 gate holds. -/
def mkItem (code : Ticker) (df : Series) : Item :=
  { code := code
    close_disp := round1 (current_price df)
    rally_disp := round1 (rally_pct df)
    t1_disp := round1 (target1 df)
    t2_disp := round1 (target2 df)
    stop_disp := round1 (stop_loss df)
    level2 := stage2Pred df }

/-- The record the loop emits for one ticker from series `df`: `none` on
insufficient data or a failed stage-1 gate, the report item otherwise. -/
def recordOf (code : Ticker) (df : Series) : Option Item :=
  if (classify df).isSome then some (mkItem code df) else none

/-! The cache and the per-ticker refresh/screen step of
`generate_final_report` in `scanner_standalone.py`. -/

/-- The pickled cache `stock_cache.pkl`: ticker ↦ (series, fetch timestamp).
Timestamps are wall-clock seconds as exact rationals. -/
abbrev Cache := List (Ticker × (Series × ℚ))

/-- Dict lookup `stock_data_cache[code]`. -/
def cacheLookup : Cache → Ticker → Option (Series × ℚ)
  | [], _ => none
  | (c, v) :: rest, code => if c = code then some v else cacheLookup rest code

/-- Dict assignment `stock_data_cache[code] = v`: overwrite in place, append
when absent. -/
def cacheInsert : Cache → Ticker → (Series × ℚ) → Cache
  | [], code, v => [(code, v)]
  | (c, w) :: rest, code, v =>
      if c = code then (c, v) :: rest else (c, w) :: cacheInsert rest code v

/-- The freshness test `(datetime.now() - last_time).total_seconds() < 3600`:
a wall-clock difference in seconds, not calendar-day truncation. -/
def freshAt (lastTime now : ℚ) : Bool := decide (now - lastTime < CACHE_TTL_SECONDS)

/-- The cache-hit decision: the cached series when the entry exists and is
fresh, `none` (forcing a fetch) otherwise. -/
def cachedSeries (cache : Cache) (code : Ticker) (now : ℚ) : Option Series :=
  match cacheLookup cache code with
  | some (last_df, last_time) => if freshAt last_time now then some last_df else none
  | none => none

/-- One ticker of the scan loop. The provider call is `fetch`, returning
`Except` so that a raised exception (network failure, malformed data) is the
`error` case that the bare `except: continue` swallows. The result is the new
cache, the emitted record (if any), and whether a network fetch was attempted. -/
def processTicker (fetch : Ticker → Except Unit Series) (now : ℚ)
    (cache : Cache) (code : Ticker) : Cache × Option Item × Bool :=
  match cachedSeries cache code now with
  | some df => (cache, recordOf code df, false)
  | none =>
      match fetch code with
      | .error _ => (cache, none, true)
      | .ok df =>
          let cache' := if df.isEmpty then cache else cacheInsert cache code (df, now)
          (cache', recordOf code df, true)

/-- The full scan: folds `processTicker` over the ticker universe, appending
each emitted item to `stage1_list` and, when flagged 第二段階, also to
`stage2_list`, in iteration order. Returns (final cache, stage1, stage2). -/
def scan (fetch : Ticker → Except Unit Series) (now : ℚ) :
    Cache → List Ticker → Cache × List Item × List Item
  | cache, [] => (cache, [], [])
  | cache, code :: rest =>
      let step := processTicker fetch now cache code
      let tail := scan fetch now step.1 rest
      match step.2.1 with
      | none => tail
      | some it =>
          (tail.1, it :: tail.2.1, if it.level2 then it :: tail.2.2 else tail.2.2)

/-- Cache loading: `pickle.load` inside `try/except` — a corrupt or unreadable
backing file is the `error` case and degrades to the empty dict the cache was
initialised with. -/
def loadCache : Except Unit Cache → Cache
  | .ok c => c
  | .error _ => []

/-- A run: load the cache (tolerating a corrupt backing file), then scan the
universe. -/
def runScan (loaded : Except Unit Cache) (fetch : Ticker → Except Unit Series)
    (now : ℚ) (codes : List Ticker) : Cache × List Item × List Item :=
  scan fetch now (loadCache loaded) codes

/-! Concrete test series used to witness the theorems. -/

/-- A quiet bar: all prices 100, volume 10. -/
def barA : Bar := ⟨100, 100, 100, 100, 10⟩

/-- Yesterday's bar: close still 100, volume spiking to 100. -/
def barC : Bar := ⟨100, 110, 100, 100, 100⟩

/-- Today's bar: close 110 — exactly 10% above the window low — with the
volume spike sustained. -/
def barB : Bar := ⟨100, 112, 100, 110, 100⟩

/-- A 26-bar series that passes stage 1 and stage 2, with
`current_price = low_window × 1.10` exactly. -/
def dfS2 : Series := List.replicate 24 barA ++ [barC, barB]

/-- A bar whose close sits exactly at the 100-share price ceiling. -/
def barP : Bar := ⟨2000, 2000, 1800, 2000, 100⟩

/-- A 26-bar series with `current_price × 100 = PRICE_LIMIT_YEN` exactly. -/
def dfPrice : Series := List.replicate 26 barP

/-! Helper lemmas about the cache operations. -/

theorem cacheLookup_insert_self (cache : Cache) (code : Ticker) (v : Series × ℚ) :
    cacheLookup (cacheInsert cache code v) code = some v := by
  induction cache with
  | nil => simp [cacheInsert, cacheLookup]
  | cons p rest ih =>
      obtain ⟨c, w⟩ := p
      by_cases h : c = code
      · simp [cacheInsert, cacheLookup, h]
      · simp [cacheInsert, cacheLookup, h, ih]

theorem cacheLookup_insert_ne (cache : Cache) (code c : Ticker) (v : Series × ℚ)
    (h : c ≠ code) : cacheLookup (cacheInsert cache code v) c = cacheLookup cache c := by
  have h' : code ≠ c := Ne.symm h
  induction cache with
  | nil => simp [cacheInsert, cacheLookup, h']
  | cons p rest ih =>
      obtain ⟨c', w⟩ := p
      by_cases hc : c' = code
      · subst hc
        simp [cacheInsert, cacheLookup, h']
      · simp [cacheInsert, cacheLookup, hc, ih]

theorem mem_cacheInsert (cache : Cache) (code : Ticker) (v : Series × ℚ)
    (p : Ticker × (Series × ℚ)) (hp : p ∈ cacheInsert cache code v) :
    p ∈ cache ∨ p = (code, v) := by
  induction cache with
  | nil => simp [cacheInsert] at hp; simp [hp]
  | cons q rest ih =>
      obtain ⟨c', w⟩ := q
      by_cases h : c' = code
      · subst h
        simp [cacheInsert] at hp
        rcases hp with hp | hp
        · right; simp [hp]
        · left; simp [hp]
      · simp [cacheInsert, h] at hp
        rcases hp with hp | hp
        · left; simp [hp]
        · rcases ih hp with h' | h'
          · left; simp [h']
          · right; exact h'

/-- The cache after one ticker step differs from the input cache at most at
the processed key. -/
theorem processTicker_cache_stable (fetch : Ticker → Except Unit Series) (now : ℚ)
    (cache : Cache) (code c : Ticker) (h : c ≠ code) :
    cacheLookup (processTicker fetch now cache code).1 c = cacheLookup cache c := by
  unfold processTicker
  cases hcs : cachedSeries cache code now with
  | some df => rfl
  | none =>
      cases hf : fetch code with
      | error e => rfl
      | ok df =>
          by_cases he : df.isEmpty
          · simp [he]
          · simp [he, cacheLookup_insert_ne cache code c (df, now) h]

/-- The record emitted for a ticker depends on the cache only through that
ticker's entry. -/
theorem processTicker_record_congr (fetch : Ticker → Except Unit Series) (now : ℚ)
    (cache cache' : Cache) (c : Ticker)
    (h : cacheLookup cache c = cacheLookup cache' c) :
    (processTicker fetch now cache c).2.1 = (processTicker fetch now cache' c).2.1 := by
  unfold processTicker cachedSeries
  rw [h]
  cases cacheLookup cache' c with
  | none =>
      cases fetch c with
      | error e => rfl
      | ok df => by_cases he : df.isEmpty <;> simp [he]
  | some v =>
      obtain ⟨df0, T⟩ := v
      by_cases hf : freshAt T now = true
      · simp [hf]
      · simp [Bool.not_eq_true] at hf
        simp [hf]
        cases fetch c with
        | error e => rfl
        | ok df => by_cases he : df.isEmpty <;> simp [he]

/-! Claim theorems. -/

/-- The stage-1 condition as the specification words it: (a) the maximum
close over the window excluding its most recent 3 bars is at most the window
low × 1.15; (b) the last close is at least the window low × 1.10; (c) the
last volume is at least 2.0 × the window-mean volume and the second-to-last
volume at least 1.5 × it; (d) the last close × 100 is at most 200000. -/
def stage1Spec (df : Series) : Prop :=
  listMax (dropLastN 3 ((lastN WINDOW_DAYS df).map Bar.close)) ≤
      listMin ((lastN WINDOW_DAYS df).map Bar.low) * 1.15 ∧
  ((lastN WINDOW_DAYS df).map Bar.close).getLastD 0 ≥
      listMin ((lastN WINDOW_DAYS df).map Bar.low) * 1.10 ∧
  (((lastN WINDOW_DAYS df).map Bar.volume).getLastD 0 ≥
      listMean ((lastN WINDOW_DAYS df).map Bar.volume) * 2.0 ∧
   ((lastN WINDOW_DAYS df).map Bar.volume).dropLast.getLastD 0 ≥
      listMean ((lastN WINDOW_DAYS df).map Bar.volume) * 1.5) ∧
  ((lastN WINDOW_DAYS df).map Bar.close).getLastD 0 * 100 ≤ 200000

theorem stage1Pred_iff_spec (df : Series) : stage1Pred df = true ↔ stage1Spec df := by
  simp only [stage1Pred, is_range_s1, up_from_low, high_vol_s1, price_within,
    RANGE_FACTOR_S1, UP_FROM_LOW_RATE, VOL_MULT_S1_TODAY, VOL_MULT_S1_YEST,
    PRICE_LIMIT_YEN, Bool.and_eq_true, decide_eq_true_eq, stage1Spec,
    low_window, current_price, vol_avg, vol_today, vol_yesterday, wdw, ge_iff_le,
    and_assoc]

/-- C1: for every series with at least WINDOW_DAYS + 1 = 26 bars, the
screening engine reports a stage-1 match exactly when the four conditions of
the specification hold on the most recent 25-bar window: bottoming range
(max close excluding the last 3 bars ≤ window low × 1.15), rebound (last
close ≥ window low × 1.10), the two-day volume spike (2.0× / 1.5× the
window-mean volume), and the 200000-yen price ceiling. -/
theorem C1_stage1_match_iff (df : Series) (h : WINDOW_DAYS + 1 ≤ df.length) :
    (classify df).isSome = true ↔ stage1Spec df := by
  rw [← stage1Pred_iff_spec]
  unfold classify
  rw [if_neg (by omega)]
  cases hs : stage1Pred df <;> simp [hs]

/-- Witness for C1 at a concrete 26-bar series (which passes the filter). -/
theorem C1_stage1_match_iff_witness :
    WINDOW_DAYS + 1 ≤ dfS2.length ∧ ((classify dfS2).isSome = true ↔ stage1Spec dfS2) :=
  ⟨by decide, C1_stage1_match_iff dfS2 (by decide)⟩

/-- C3: a series of exactly WINDOW_DAYS = 25 bars is skipped with no
classification, while a series of exactly 26 bars is evaluated: its outcome
is decided by the stage-1 predicate alone, never by its length. -/
theorem C3_window_boundary :
    (∀ df : Series, df.length = WINDOW_DAYS → classify df = none) ∧
    (∀ df : Series, df.length = WINDOW_DAYS + 1 →
      ((classify df).isSome = true ↔ stage1Pred df = true)) := by
  constructor
  · intro df h
    unfold classify
    rw [if_pos (by omega)]
  · intro df h
    unfold classify
    rw [if_neg (by omega)]
    cases hs : stage1Pred df <;> simp [hs]

/-- Witness for C3: a concrete 25-bar series is rejected; a concrete 26-bar
series is evaluated by the predicate. -/
theorem C3_window_boundary_witness :
    classify (List.replicate 25 barA) = none ∧
    ((classify dfS2).isSome = true ↔ stage1Pred dfS2 = true) :=
  ⟨C3_window_boundary.1 (List.replicate 25 barA) (by decide),
   C3_window_boundary.2 dfS2 (by decide)⟩

/-! Concrete evaluation lemmas. `decide` cannot reduce ℚ arithmetic in the
kernel, so the window statistics of the test series are computed explicitly:
structural list facts by `rfl`, folds over constant runs by the replicate
lemmas below, and the remaining literal arithmetic by `norm_num`. -/

theorem foldl_min_replicate (n : ℕ) (x : ℚ) :
    List.foldl min x (List.replicate n x) = x := by
  induction n with
  | zero => rfl
  | succ k ih =>
      rw [List.replicate_succ]
      show List.foldl min (min x x) (List.replicate k x) = x
      rw [min_self]
      exact ih

theorem listMin_replicate_succ (n : ℕ) (x : ℚ) :
    listMin (List.replicate (n + 1) x) = x := by
  rw [List.replicate_succ]
  show List.foldl min x (List.replicate n x) = x
  exact foldl_min_replicate n x

theorem foldl_max_replicate (n : ℕ) (x : ℚ) :
    List.foldl max x (List.replicate n x) = x := by
  induction n with
  | zero => rfl
  | succ k ih =>
      rw [List.replicate_succ]
      show List.foldl max (max x x) (List.replicate k x) = x
      rw [max_self]
      exact ih

theorem listMax_replicate_succ (n : ℕ) (x : ℚ) :
    listMax (List.replicate (n + 1) x) = x := by
  rw [List.replicate_succ]
  show List.foldl max x (List.replicate n x) = x
  exact foldl_max_replicate n x

theorem foldl_add_replicate (n : ℕ) (a x : ℚ) :
    List.foldl (· + ·) a (List.replicate n x) = a + (n : ℚ) * x := by
  induction n generalizing a with
  | zero => simp
  | succ k ih =>
      rw [List.replicate_succ]
      push_cast
      show List.foldl (· + ·) (a + x) (List.replicate k x) = a + ((k : ℚ) + 1) * x
      rw [ih]
      ring

theorem lows_dfS2 : (wdw dfS2).map Bar.low = List.replicate 25 (100 : ℚ) := rfl

theorem closes_dfS2 :
    (wdw dfS2).map Bar.close = List.replicate 23 (100 : ℚ) ++ [100, 110] := rfl

theorem vols_dfS2 :
    (wdw dfS2).map Bar.volume = List.replicate 23 (10 : ℚ) ++ [100, 100] := rfl

theorem low_window_dfS2 : low_window dfS2 = 100 := by
  unfold low_window
  rw [lows_dfS2]
  exact listMin_replicate_succ 24 100

theorem current_price_dfS2 : current_price dfS2 = 110 := rfl

theorem vol_today_dfS2 : vol_today dfS2 = 100 := rfl

theorem vol_yesterday_dfS2 : vol_yesterday dfS2 = 100 := rfl

theorem open_today_dfS2 : open_today dfS2 = 100 := rfl

theorem max3_dfS2 :
    listMax (dropLastN 3 ((wdw dfS2).map Bar.close)) = 100 := by
  have h : dropLastN 3 ((wdw dfS2).map Bar.close) = List.replicate 22 (100 : ℚ) := rfl
  rw [h]
  exact listMax_replicate_succ 21 100

theorem max1_dfS2 :
    listMax (dropLastN 1 ((wdw dfS2).map Bar.close)) = 100 := by
  have h : dropLastN 1 ((wdw dfS2).map Bar.close) = List.replicate 24 (100 : ℚ) := rfl
  rw [h]
  exact listMax_replicate_succ 23 100

theorem vol_avg_dfS2 : vol_avg dfS2 = 86 / 5 := by
  unfold vol_avg listMean listSum
  rw [vols_dfS2]
  rw [List.foldl_append, foldl_add_replicate]
  show ((0 + (23 : ℚ) * 10 + 100) + 100) / ((50 : ℕ) - 25 : ℕ) = 86 / 5
  norm_num

theorem stop_loss_dfS2 : stop_loss dfS2 = 102 := by
  have h : lastN 5 (dfS2.map Bar.close) = [100, 100, 100, 100, 110] := rfl
  unfold stop_loss listMean listSum
  rw [h]
  show ((((0 + (100 : ℚ)) + 100) + 100) + 100 + 110) / (5 : ℕ) = 102
  norm_num

theorem target1_dfS2 : target1 dfS2 = 1067 / 10 := by
  unfold target1
  rw [current_price_dfS2, open_today_dfS2, max_eq_left (by norm_num)]
  norm_num

theorem target2_dfS2 : target2 dfS2 = 105 := by
  unfold target2
  rw [current_price_dfS2, low_window_dfS2]
  norm_num

theorem volFactor_dfS2 : volFactor dfS2 = 250 / 43 := by
  unfold volFactor
  rw [vol_today_dfS2, vol_avg_dfS2]
  norm_num

theorem rally_pct_dfS2 : rally_pct dfS2 = 10 := by
  unfold rally_pct
  rw [current_price_dfS2, low_window_dfS2]
  norm_num

theorem stage1Pred_dfS2 : stage1Pred dfS2 = true := by
  simp only [stage1Pred, is_range_s1, up_from_low, high_vol_s1, price_within,
    Bool.and_eq_true, decide_eq_true_eq, max3_dfS2, low_window_dfS2,
    current_price_dfS2, vol_avg_dfS2, vol_today_dfS2, vol_yesterday_dfS2,
    RANGE_FACTOR_S1, UP_FROM_LOW_RATE, VOL_MULT_S1_TODAY, VOL_MULT_S1_YEST,
    PRICE_LIMIT_YEN]
  norm_num

theorem stage2Pred_dfS2 : stage2Pred dfS2 = true := by
  simp only [stage2Pred, is_range_s2, high_vol_s2, Bool.and_eq_true,
    decide_eq_true_eq, max1_dfS2, low_window_dfS2, vol_avg_dfS2,
    vol_today_dfS2, vol_yesterday_dfS2, RANGE_FACTOR_S2, VOL_MULT_S2]
  norm_num

/-- The raw record the scanner computes for `dfS2`. -/
def resS2 : ScreenResult :=
  { level2 := true, close_today := 110, t1 := 1067 / 10, t2 := 105,
    stop := 102, volx := 250 / 43, rally := 10 }

theorem classify_dfS2 : classify dfS2 = some resS2 := by
  unfold classify
  rw [if_neg (by decide), if_pos stage1Pred_dfS2]
  rw [stage2Pred_dfS2, current_price_dfS2, target1_dfS2, target2_dfS2,
    stop_loss_dfS2, volFactor_dfS2, rally_pct_dfS2]
  rfl

theorem current_price_dfPrice : current_price dfPrice = 2000 := rfl

theorem price_within_dfPrice : price_within dfPrice = true := by
  simp only [price_within, decide_eq_true_eq, current_price_dfPrice, PRICE_LIMIT_YEN]
  norm_num

/-- C6: thresholds are inclusive with no epsilon: on a concrete series with
`current_price = low_window × 1.10` exactly the rebound condition passes, and
on a concrete series with `current_price × 100 = 200000` exactly the price
ceiling condition passes. -/
theorem C6_threshold_inclusive :
    (current_price dfS2 = low_window dfS2 * UP_FROM_LOW_RATE ∧ up_from_low dfS2 = true) ∧
    (current_price dfPrice * 100 = PRICE_LIMIT_YEN ∧ price_within dfPrice = true) := by
  refine ⟨⟨?_, ?_⟩, ?_, price_within_dfPrice⟩
  · rw [current_price_dfS2, low_window_dfS2, UP_FROM_LOW_RATE]
    norm_num
  · simp only [up_from_low, decide_eq_true_eq, current_price_dfS2,
      low_window_dfS2, UP_FROM_LOW_RATE]
    norm_num
  · rw [current_price_dfPrice, PRICE_LIMIT_YEN]
    norm_num

/-- Display rounding fixes any value with at most one decimal place. -/
theorem round1_eq_self (x : ℚ) (n : ℤ) (h : x * 10 = (n : ℚ)) : round1 x = x := by
  unfold round1 pyRound
  rw [h, Int.fract_intCast, if_pos (by norm_num), Int.floor_intCast, ← h]
  ring

/-- The displayed report item for `dfS2` (every derived value already has at
most one decimal place, so display rounding fixes it). -/
def itemS2 : Item :=
  { code := 7203, close_disp := 110, rally_disp := 10, t1_disp := 1067 / 10,
    t2_disp := 105, stop_disp := 102, level2 := true }

theorem mkItem_dfS2 : mkItem 7203 dfS2 = itemS2 := by
  unfold mkItem
  rw [current_price_dfS2, rally_pct_dfS2, target1_dfS2, target2_dfS2,
    stop_loss_dfS2, stage2Pred_dfS2]
  rw [round1_eq_self 110 1100 (by norm_num), round1_eq_self 10 100 (by norm_num),
    round1_eq_self (1067 / 10) 1067 (by norm_num),
    round1_eq_self 105 1050 (by norm_num), round1_eq_self 102 1020 (by norm_num)]
  rfl

theorem recordOf_dfS2 : recordOf 7203 dfS2 = some itemS2 := by
  unfold recordOf
  rw [classify_dfS2, mkItem_dfS2]
  rfl

/-- A provider returning `dfS2` for every ticker. -/
def fetchS2 : Ticker → Except Unit Series := fun _ => Except.ok dfS2

/-- A provider raising an exception for every ticker. -/
def fetchErr : Ticker → Except Unit Series := fun _ => Except.error ()

theorem scan_fetchS2 :
    scan fetchS2 0 [] [7203] = ([(7203, (dfS2, 0))], [itemS2], [itemS2]) := by
  have hp : processTicker fetchS2 0 [] 7203 = ([(7203, (dfS2, 0))], some itemS2, true) := by
    unfold processTicker
    show (match fetchS2 7203 with
          | .error _ => (([] : Cache), (none : Option Item), true)
          | .ok df =>
              (if df.isEmpty then ([] : Cache) else cacheInsert [] 7203 (df, 0),
               recordOf 7203 df, true)) = _
    show (if dfS2.isEmpty then ([] : Cache) else cacheInsert [] 7203 (dfS2, 0),
          recordOf 7203 dfS2, true) = _
    rw [recordOf_dfS2]
    rfl
  show (match (processTicker fetchS2 0 [] 7203).2.1 with
        | none => scan fetchS2 0 (processTicker fetchS2 0 [] 7203).1 []
        | some it =>
            ((scan fetchS2 0 (processTicker fetchS2 0 [] 7203).1 []).1,
             it :: (scan fetchS2 0 (processTicker fetchS2 0 [] 7203).1 []).2.1,
             if it.level2 then
               it :: (scan fetchS2 0 (processTicker fetchS2 0 [] 7203).1 []).2.2
             else (scan fetchS2 0 (processTicker fetchS2 0 [] 7203).1 []).2.2)) = _
  rw [hp]
  rfl

theorem itemS2_mem_stage2 : itemS2 ∈ (scan fetchS2 0 [] [7203]).2.2 := by
  rw [scan_fetchS2]
  exact List.mem_singleton.mpr rfl

/-! Unfolding lemmas for the scan loop. -/

theorem scan_nil (fetch : Ticker → Except Unit Series) (now : ℚ) (cache : Cache) :
    scan fetch now cache [] = (cache, [], []) := rfl

theorem scan_cons (fetch : Ticker → Except Unit Series) (now : ℚ) (cache : Cache)
    (code : Ticker) (rest : List Ticker) :
    scan fetch now cache (code :: rest) =
      match (processTicker fetch now cache code).2.1 with
      | none => scan fetch now (processTicker fetch now cache code).1 rest
      | some it =>
          ((scan fetch now (processTicker fetch now cache code).1 rest).1,
           it :: (scan fetch now (processTicker fetch now cache code).1 rest).2.1,
           if it.level2 then
             it :: (scan fetch now (processTicker fetch now cache code).1 rest).2.2
           else (scan fetch now (processTicker fetch now cache code).1 rest).2.2) := rfl

/-- A classification record exists only behind the stage-1 gate, and its
stage-2 flag is exactly the tightened stage-2 test. -/
theorem classify_some_stage1 (df : Series) (r : ScreenResult)
    (h : classify df = some r) : stage1Pred df = true ∧ r.level2 = stage2Pred df := by
  unfold classify at h
  by_cases h1 : df.length < WINDOW_DAYS + 1
  · rw [if_pos h1] at h
    exact absurd h (by simp)
  · rw [if_neg h1] at h
    by_cases h2 : stage1Pred df = true
    · rw [if_pos h2] at h
      refine ⟨h2, ?_⟩
      have he := Option.some.inj h
      subst he
      rfl
    · rw [if_neg h2] at h
      exact absurd h (by simp)

/-- C2: the stage-2 flag of a classification record is exactly the tightened
stage-2 test (range over all window bars but the most recent one with factor
1.10, and both volume thresholds at 2.0× the window mean); a record flagged
stage-2 exists only when the stage-1 gate holds; and in the scan loop every
item of the stage-2 list is also a member of the stage-1 list. -/
theorem C2_stage2_refines_stage1 :
    (∀ (df : Series) (r : ScreenResult), classify df = some r →
        r.level2 = (is_range_s2 df && high_vol_s2 df)) ∧
    (∀ (df : Series) (r : ScreenResult), classify df = some r → r.level2 = true →
        stage1Pred df = true) ∧
    (∀ (fetch : Ticker → Except Unit Series) (now : ℚ) (cache : Cache)
        (codes : List Ticker) (it : Item),
        it ∈ (scan fetch now cache codes).2.2 → it ∈ (scan fetch now cache codes).2.1) := by
  refine ⟨?_, ?_, ?_⟩
  · intro df r h
    exact (classify_some_stage1 df r h).2
  · intro df r h _
    exact (classify_some_stage1 df r h).1
  · intro fetch now cache codes
    induction codes generalizing cache with
    | nil =>
        intro it h
        rw [scan_nil] at h
        exact absurd h (by simp)
    | cons c cs ih =>
        intro it h
        rw [scan_cons] at h ⊢
        revert h
        cases hrec : (processTicker fetch now cache c).2.1 with
        | none => exact fun h => ih _ it h
        | some jt =>
            intro h
            have h' : it ∈ (if jt.level2 then
                jt :: (scan fetch now (processTicker fetch now cache c).1 cs).2.2
              else (scan fetch now (processTicker fetch now cache c).1 cs).2.2) := h
            show it ∈ jt :: (scan fetch now (processTicker fetch now cache c).1 cs).2.1
            by_cases hl : jt.level2 = true
            · rw [if_pos hl] at h'
              rcases List.mem_cons.mp h' with h'' | h''
              · exact List.mem_cons.mpr (Or.inl h'')
              · exact List.mem_cons.mpr (Or.inr (ih _ it h''))
            · rw [if_neg hl] at h'
              exact List.mem_cons.mpr (Or.inr (ih _ it h'))

/-- Witness for C2: concrete record and concrete scan over one ticker. -/
theorem C2_stage2_refines_stage1_witness :
    resS2.level2 = (is_range_s2 dfS2 && high_vol_s2 dfS2) ∧
    stage1Pred dfS2 = true ∧
    itemS2 ∈ (scan fetchS2 0 [] [7203]).2.1 :=
  ⟨C2_stage2_refines_stage1.1 dfS2 resS2 classify_dfS2,
   C2_stage2_refines_stage1.2.1 dfS2 resS2 classify_dfS2 rfl,
   C2_stage2_refines_stage1.2.2 fetchS2 0 [] [7203] itemS2 itemS2_mem_stage2⟩

/-- C5: when the stage-1 gate holds on a long-enough series, the record's
derived fields are exactly the specified formulas computed on un-rounded
values, and the report item applies the 1-decimal display rounding to those
raw values (and only there — the gate itself compares raw values, cf. the
C1 theorem). -/
theorem C5_derived_fields (df : Series) (code : Ticker)
    (h : WINDOW_DAYS + 1 ≤ df.length) (hs : stage1Pred df = true) :
    ∃ r, classify df = some r ∧
      r.t1 = max (current_price df * 0.97) (open_today df) ∧
      r.t2 = (low_window df + current_price df) / 2 ∧
      r.stop = listMean (lastN 5 (df.map Bar.close)) ∧
      r.volx = vol_today df / vol_avg df ∧
      r.rally = (current_price df / low_window df - 1) * 100 ∧
      mkItem code df =
        { code := code, close_disp := round1 r.close_today,
          rally_disp := round1 r.rally, t1_disp := round1 r.t1,
          t2_disp := round1 r.t2, stop_disp := round1 r.stop,
          level2 := r.level2 } := by
  refine ⟨{ level2 := stage2Pred df, close_today := current_price df,
            t1 := target1 df, t2 := target2 df, stop := stop_loss df,
            volx := volFactor df, rally := rally_pct df },
          ?_, rfl, rfl, rfl, rfl, rfl, rfl⟩
  unfold classify
  rw [if_neg (by omega), if_pos hs]

/-- Witness for C5 at the concrete stage-1 series. -/
theorem C5_derived_fields_witness :
    (WINDOW_DAYS + 1 ≤ dfS2.length ∧ stage1Pred dfS2 = true) ∧
    ∃ r, classify dfS2 = some r ∧
      r.t1 = max (current_price dfS2 * 0.97) (open_today dfS2) ∧
      r.t2 = (low_window dfS2 + current_price dfS2) / 2 ∧
      r.stop = listMean (lastN 5 (dfS2.map Bar.close)) ∧
      r.volx = vol_today dfS2 / vol_avg dfS2 ∧
      r.rally = (current_price dfS2 / low_window dfS2 - 1) * 100 ∧
      mkItem 7203 dfS2 =
        { code := 7203, close_disp := round1 r.close_today,
          rally_disp := round1 r.rally, t1_disp := round1 r.t1,
          t2_disp := round1 r.t2, stop_disp := round1 r.stop,
          level2 := r.level2 } :=
  ⟨⟨by decide, stage1Pred_dfS2⟩,
   C5_derived_fields dfS2 7203 (by decide) stage1Pred_dfS2⟩

/-- C7: a corrupt or unreadable cache file degrades to the empty cache and
the run proceeds as a cold-cache scan; nothing is raised. -/
theorem C7_corrupt_cache_degrades :
    ∀ (e : Unit) (fetch : Ticker → Except Unit Series) (now : ℚ)
      (codes : List Ticker),
      loadCache (Except.error e) = [] ∧
      runScan (Except.error e) fetch now codes = scan fetch now [] codes := by
  intro e fetch now codes
  exact ⟨rfl, rfl⟩

/-- C8: a per-ticker exception (the provider call fails) yields no
classification record for that ticker and leaves the scan of the remaining
tickers untouched. -/
theorem C8_per_ticker_error_skipped (fetch : Ticker → Except Unit Series)
    (now : ℚ) (cache : Cache) (code : Ticker) (rest : List Ticker)
    (herr : fetch code = Except.error ())
    (hmiss : cachedSeries cache code now = none) :
    (processTicker fetch now cache code).2.1 = none ∧
    scan fetch now cache (code :: rest) = scan fetch now cache rest := by
  have hp : processTicker fetch now cache code = (cache, none, true) := by
    unfold processTicker
    rw [hmiss, herr]
  constructor
  · rw [hp]
  · rw [scan_cons, hp]

/-- Witness for C8: a provider that always fails, over a two-ticker tail. -/
theorem C8_per_ticker_error_skipped_witness :
    (processTicker fetchErr 0 [] 1).2.1 = none ∧
    scan fetchErr 0 [] [1, 2] = scan fetchErr 0 [] [2] :=
  C8_per_ticker_error_skipped fetchErr 0 [] 1 [2] rfl rfl

/-- Master description of one ticker step when the ticker has a cache entry
`(df0, T)` and the provider would return `df1 ≠ []`. -/
theorem processTicker_of_lookup (cache : Cache) (code : Ticker) (df0 df1 : Series)
    (T : ℚ) (hlook : cacheLookup cache code = some (df0, T)) (hne : df1 ≠ []) :
    ∀ t : ℚ, processTicker (fun _ => Except.ok df1) t cache code =
      if t - T < 3600 then (cache, recordOf code df0, false)
      else (cacheInsert cache code (df1, t), recordOf code df1, true) := by
  intro t
  have hie : df1.isEmpty = false := by
    cases df1 with
    | nil => exact absurd rfl hne
    | cons b l => rfl
  have hcs : cachedSeries cache code t = if freshAt T t then some df0 else none := by
    unfold cachedSeries
    rw [hlook]
  unfold processTicker
  rw [hcs]
  by_cases hf : t - T < 3600
  · have hft : freshAt T t = true := by
      simp [freshAt, CACHE_TTL_SECONDS, hf]
    rw [hft, if_pos hf]
    rfl
  · have hft : freshAt T t = false := by
      simp [freshAt, CACHE_TTL_SECONDS, hf]
    rw [hft, if_neg hf]
    show (if df1.isEmpty then cache else cacheInsert cache code (df1, t),
          recordOf code df1, true) = _
    rw [hie]
    rfl

/-- C4: for a ticker cached at fetch time `T` (and a provider that would
return a non-empty series), the cached series is used with no network fetch
exactly when `now − T < 3600` seconds — a wall-clock difference, so the entry
is fresh at `T + 3599` and stale at `T + 3601` — and a stale entry triggers a
fetch that overwrites it with the new series and timestamp. -/
theorem C4_cache_freshness (cache : Cache) (code : Ticker) (df0 df1 : Series)
    (T now : ℚ) (hlook : cacheLookup cache code = some (df0, T)) (hne : df1 ≠ []) :
    ((processTicker (fun _ => Except.ok df1) now cache code).2.2 = false ↔
        now - T < 3600) ∧
    (now - T < 3600 →
      processTicker (fun _ => Except.ok df1) now cache code =
        (cache, recordOf code df0, false)) ∧
    (processTicker (fun _ => Except.ok df1) (T + 3599) cache code).2.2 = false ∧
    (processTicker (fun _ => Except.ok df1) (T + 3601) cache code).2.2 = true ∧
    (¬ now - T < 3600 →
      cacheLookup (processTicker (fun _ => Except.ok df1) now cache code).1 code =
        some (df1, now)) := by
  have hmain := processTicker_of_lookup cache code df0 df1 T hlook hne
  refine ⟨?_, ?_, ?_, ?_, ?_⟩
  · by_cases hf : now - T < 3600 <;> simp [hmain now, hf]
  · intro hf
    rw [hmain now, if_pos hf]
  · rw [hmain (T + 3599), if_pos (by linarith)]
  · rw [hmain (T + 3601), if_neg (by intro h; linarith)]
  · intro hf
    rw [hmain now, if_neg hf]
    exact cacheLookup_insert_self cache code (df1, now)

/-- A one-entry cache holding `dfS2` fetched at time 0. -/
def cache0 : Cache := [(1, (dfS2, 0))]

/-- Witness for C4 on the concrete one-entry cache at `now = 10`. -/
theorem C4_cache_freshness_witness :
    (cacheLookup cache0 1 = some (dfS2, 0) ∧ dfPrice ≠ []) ∧
    (((processTicker (fun _ => Except.ok dfPrice) 10 cache0 1).2.2 = false ↔
        (10 : ℚ) - 0 < 3600) ∧
     ((10 : ℚ) - 0 < 3600 →
       processTicker (fun _ => Except.ok dfPrice) 10 cache0 1 =
         (cache0, recordOf 1 dfS2, false)) ∧
     (processTicker (fun _ => Except.ok dfPrice) ((0 : ℚ) + 3599) cache0 1).2.2 = false ∧
     (processTicker (fun _ => Except.ok dfPrice) ((0 : ℚ) + 3601) cache0 1).2.2 = true ∧
     (¬ (10 : ℚ) - 0 < 3600 →
       cacheLookup (processTicker (fun _ => Except.ok dfPrice) 10 cache0 1).1 1 =
         some (dfPrice, 10))) :=
  ⟨⟨rfl, by decide⟩, C4_cache_freshness cache0 1 dfS2 dfPrice 0 10 rfl (by decide)⟩

/-- C9: for a duplicate-free ticker universe and fixed data, both result lists
are the `filterMap` of the per-ticker record over the universe in its input
order — stable, deterministic, order-preserving. -/
theorem C9_result_order (fetch : Ticker → Except Unit Series) (now : ℚ)
    (cache : Cache) (codes : List Ticker) (hnd : codes.Nodup) :
    (scan fetch now cache codes).2.1 =
      codes.filterMap (fun c => (processTicker fetch now cache c).2.1) ∧
    (scan fetch now cache codes).2.2 =
      codes.filterMap (fun c =>
        match (processTicker fetch now cache c).2.1 with
        | some it => if it.level2 then some it else none
        | none => none) := by
  induction codes generalizing cache with
  | nil => exact ⟨rfl, rfl⟩
  | cons c cs ih =>
      obtain ⟨hc, hcs⟩ := List.nodup_cons.mp hnd
      have hstab : ∀ x ∈ cs,
          (processTicker fetch now (processTicker fetch now cache c).1 x).2.1 =
            (processTicker fetch now cache x).2.1 := by
        intro x hx
        exact processTicker_record_congr fetch now _ cache x
          (processTicker_cache_stable fetch now cache c x (fun he => hc (he ▸ hx)))
      obtain ⟨ih1, ih2⟩ := ih (processTicker fetch now cache c).1 hcs
      rw [scan_cons]
      cases hrec : (processTicker fetch now cache c).2.1 with
      | none =>
          constructor
          · show (scan fetch now (processTicker fetch now cache c).1 cs).2.1 =
              List.filterMap (fun x => (processTicker fetch now cache x).2.1) (c :: cs)
            rw [List.filterMap_cons_none
              (f := fun x => (processTicker fetch now cache x).2.1) hrec, ih1]
            exact List.filterMap_congr (fun x hx => hstab x hx)
          · show (scan fetch now (processTicker fetch now cache c).1 cs).2.2 =
              List.filterMap (fun x =>
                match (processTicker fetch now cache x).2.1 with
                | some it => if it.level2 then some it else none
                | none => none) (c :: cs)
            rw [List.filterMap_cons_none (by rw [hrec]), ih2]
            exact List.filterMap_congr (fun x hx => by rw [hstab x hx])
      | some jt =>
          constructor
          · show jt :: (scan fetch now (processTicker fetch now cache c).1 cs).2.1 =
              List.filterMap (fun x => (processTicker fetch now cache x).2.1) (c :: cs)
            rw [List.filterMap_cons_some
              (f := fun x => (processTicker fetch now cache x).2.1) hrec, ih1]
            exact congrArg _ (List.filterMap_congr (fun x hx => hstab x hx))
          · show (if jt.level2 then
                jt :: (scan fetch now (processTicker fetch now cache c).1 cs).2.2
              else (scan fetch now (processTicker fetch now cache c).1 cs).2.2) =
              List.filterMap (fun x =>
                match (processTicker fetch now cache x).2.1 with
                | some it => if it.level2 = true then some it else none
                | none => none) (c :: cs)
            by_cases hl : jt.level2 = true
            · rw [List.filterMap_cons_some (b := jt) (by rw [hrec]; simp [hl]),
                if_pos hl, ih2]
              exact congrArg _ (List.filterMap_congr (fun x hx => by rw [hstab x hx]))
            · rw [List.filterMap_cons_none (by rw [hrec]; simp [hl]), if_neg hl, ih2]
              exact List.filterMap_congr (fun x hx => by rw [hstab x hx])

/-- Witness for C9 on a duplicate-free two-ticker universe. -/
theorem C9_result_order_witness :
    ([1, 2] : List Ticker).Nodup ∧
    ((scan fetchS2 0 [] [1, 2]).2.1 =
      ([1, 2] : List Ticker).filterMap (fun c => (processTicker fetchS2 0 [] c).2.1) ∧
     (scan fetchS2 0 [] [1, 2]).2.2 =
      ([1, 2] : List Ticker).filterMap (fun c =>
        match (processTicker fetchS2 0 [] c).2.1 with
        | some it => if it.level2 then some it else none
        | none => none)) :=
  ⟨by decide, C9_result_order fetchS2 0 [] [1, 2] (by decide)⟩

/-- Either a ticker step leaves the cache unchanged, or the provider returned
a non-empty series that was written under the processed key. -/
theorem processTicker_cache_cases (fetch : Ticker → Except Unit Series) (now : ℚ)
    (cache : Cache) (code : Ticker) :
    (processTicker fetch now cache code).1 = cache ∨
    ∃ df, fetch code = Except.ok df ∧ df ≠ [] ∧
      (processTicker fetch now cache code).1 = cacheInsert cache code (df, now) := by
  unfold processTicker
  cases hcs : cachedSeries cache code now with
  | some df => left; rfl
  | none =>
      cases hf : fetch code with
      | error e => left; rfl
      | ok df =>
          by_cases he : df.isEmpty = true
          · left
            show (if df.isEmpty then cache else cacheInsert cache code (df, now)) = cache
            rw [if_pos he]
          · right
            refine ⟨df, rfl, ?_, ?_⟩
            · intro h
              rw [h] at he
              exact he rfl
            · show (if df.isEmpty then cache else cacheInsert cache code (df, now)) = _
              rw [if_neg he]

theorem processTicker_preserves_nonempty (fetch : Ticker → Except Unit Series)
    (now : ℚ) (cache : Cache) (code : Ticker)
    (hwf : ∀ p ∈ cache, p.2.1 ≠ ([] : Series)) :
    ∀ p ∈ (processTicker fetch now cache code).1, p.2.1 ≠ ([] : Series) := by
  intro p hp
  rcases processTicker_cache_cases fetch now cache code with h | ⟨df, _, hdf, h⟩
  · rw [h] at hp
    exact hwf p hp
  · rw [h] at hp
    rcases mem_cacheInsert cache code (df, now) p hp with h' | h'
    · exact hwf p h'
    · rw [h']
      exact hdf

theorem scan_preserves_nonempty (fetch : Ticker → Except Unit Series) (now : ℚ)
    (codes : List Ticker) :
    ∀ cache : Cache, (∀ p ∈ cache, p.2.1 ≠ ([] : Series)) →
      ∀ p ∈ (scan fetch now cache codes).1, p.2.1 ≠ ([] : Series) := by
  induction codes with
  | nil =>
      intro cache hwf p hp
      rw [scan_nil] at hp
      exact hwf p hp
  | cons c cs ih =>
      intro cache hwf p hp
      rw [scan_cons] at hp
      have hp' : p ∈ (scan fetch now (processTicker fetch now cache c).1 cs).1 := by
        revert hp
        cases (processTicker fetch now cache c).2.1 with
        | none => exact id
        | some jt => exact id
      exact ih _ (processTicker_preserves_nonempty fetch now cache c hwf) p hp'

/-- C10: if every cached series is non-empty, it stays so across a ticker step
and across a whole scan (entries are only ever written with a non-empty
fetched series), and a stale entry whose refetch comes back empty is retained
unchanged. -/
theorem C10_cache_nonempty_invariant (fetch : Ticker → Except Unit Series)
    (now : ℚ) (cache : Cache) (code : Ticker)
    (hwf : ∀ p ∈ cache, p.2.1 ≠ ([] : Series)) :
    (∀ p ∈ (processTicker fetch now cache code).1, p.2.1 ≠ ([] : Series)) ∧
    (∀ codes : List Ticker, ∀ p ∈ (scan fetch now cache codes).1,
        p.2.1 ≠ ([] : Series)) ∧
    (∀ (df0 : Series) (T : ℚ), cacheLookup cache code = some (df0, T) →
      ¬ now - T < 3600 → fetch code = Except.ok [] →
      (processTicker fetch now cache code).1 = cache) := by
  refine ⟨processTicker_preserves_nonempty fetch now cache code hwf,
          fun codes => scan_preserves_nonempty fetch now codes cache hwf, ?_⟩
  intro df0 T hlook hstale hempty
  have hcs : cachedSeries cache code now = none := by
    unfold cachedSeries
    rw [hlook]
    show (if freshAt T now then some df0 else none) = none
    have hft : freshAt T now = false := by
      simp [freshAt, CACHE_TTL_SECONDS, hstale]
    rw [hft]
    rfl
  unfold processTicker
  rw [hcs, hempty]
  rfl

/-- A provider that returns an empty series for every ticker. -/
def fetchEmpty : Ticker → Except Unit Series := fun _ => Except.ok []

/-- Witness for C10: the stale entry of the one-entry cache survives an empty
refetch, and non-emptiness is preserved. -/
theorem C10_cache_nonempty_invariant_witness :
    (∀ p ∈ (processTicker fetchEmpty 5000 cache0 1).1, p.2.1 ≠ ([] : Series)) ∧
    (∀ p ∈ (scan fetchEmpty 5000 cache0 [1]).1, p.2.1 ≠ ([] : Series)) ∧
    (processTicker fetchEmpty 5000 cache0 1).1 = cache0 :=
  have h := C10_cache_nonempty_invariant fetchEmpty 5000 cache0 1 (by decide)
  ⟨h.1, h.2.1 [1], h.2.2 dfS2 0 rfl (by norm_num) rfl⟩

end Morita
